import Mathlib

/-!
# SOP-APP: conversations table and dashboard statistics

A shallow embedding of the loaders and the row-building code of
`app/routes/app.conversations.jsx` and `app/routes/app._index.jsx`.

JavaScript strings are sequences of UTF-16 code units: `length` counts code
units and `substring` cuts between code units, so a string value is modelled as
the list of its code units.
-/

namespace SopApp

/-! ## JavaScript values -/

/-- A JavaScript string value: the list of its UTF-16 code units. -/
abbrev JsString := List Nat

/-- The UTF-16 code units of one Unicode scalar value: one unit in the basic
plane, a surrogate pair above it. -/
def codeUnits (c : Char) : List Nat :=
  if c.toNat < 0x10000 then [c.toNat]
  else [0xD800 + (c.toNat - 0x10000) / 0x400, 0xDC00 + (c.toNat - 0x10000) % 0x400]

/-- The JavaScript string denoted by a source literal. -/
def utf16 (s : String) : JsString :=
  s.toList.flatMap codeUnits

/-- The values a conversation field or a property read can hold here. -/
inductive JsValue where
  | undefined
  | null
  | str (s : JsString)
  deriving DecidableEq, Repr

/-- The result of `ToBoolean`: `undefined`, `null` and the empty string are falsy. -/
def JsValue.truthy : JsValue → Bool
  | .undefined => false
  | .null => false
  | .str s => !s.isEmpty

/-- The result of `ToPropertyKey` for a value used in `obj[value]`. -/
def toPropertyKey : JsValue → JsString
  | .undefined => utf16 "undefined"
  | .null => utf16 "null"
  | .str s => s

/-- The clamping of an index argument of `substring` to `[0, len]`. -/
def clampIndex (len : Nat) (i : Int) : Nat :=
  min i.toNat len

/-- The method `String.prototype.substring(start, end)`: both indices are clamped to
`[0, length]`, swapped when `start > end`, and the code units from the lower
index up to the upper one are returned. -/
def substring (s : JsString) (start stop : Int) : JsString :=
  let a := clampIndex s.length start
  let b := clampIndex s.length stop
  let lo := min a b
  let hi := max a b
  (s.drop lo).take (hi - lo)

/-- What a loader or a render can throw. -/
inductive JsError where
  | typeError
  | thrownResponse
  deriving DecidableEq, Repr

deriving instance DecidableEq for Except

/-! ## The conversations route, `app.conversations.jsx` -/

/-- One entry of the `conversations` array of the conversations loader. -/
structure Conversation where
  id : JsString
  customerName : JsString
  lastMessage : JsString
  status : JsValue
  startTime : JsString
  messageCount : Nat
  satisfaction : JsValue
  deriving DecidableEq, Repr

/-- The request a loader receives: the search parameters of its URL, in order. -/
structure Request where
  searchParams : List (JsString × JsString)
  deriving DecidableEq, Repr

/-- The method `URLSearchParams.prototype.get`: the first value under the name, or `null`. -/
def searchParamsGet (params : List (JsString × JsString)) (name : JsString) : JsValue :=
  match params.find? (fun p => p.1 == name) with
  | some p => .str p.2
  | none => .null

/-- The value of a filter `Select`: `searchParams.get(name) || "all"`. -/
def filterValue (req : Request) (name : JsString) : JsValue :=
  let v := searchParamsGet req.searchParams name
  if v.truthy then v else .str (utf16 "all")

/-- The `filters` object of the loader's result. -/
structure Filters where
  status : List JsString
  satisfaction : List JsString
  deriving DecidableEq, Repr

/-- The object the conversations loader returns. -/
structure ConversationsData where
  conversations : List Conversation
  totalCount : Nat
  filters : Filters
  deriving DecidableEq, Repr

/-- The array literal `conversations` of the conversations loader. -/
def conversations : List Conversation :=
  [ { id := utf16 "conv_001"
      customerName := utf16 "John Doe"
      lastMessage := utf16 "Thanks for helping me find those sneakers!"
      status := .str (utf16 "completed")
      startTime := utf16 "2024-01-15 14:30"
      messageCount := 8
      satisfaction := .str (utf16 "positive") },
    { id := utf16 "conv_002"
      customerName := utf16 "Sarah Wilson"
      lastMessage := utf16 "Can you help me track my order?"
      status := .str (utf16 "active")
      startTime := utf16 "2024-01-15 16:45"
      messageCount := 3
      satisfaction := .null },
    { id := utf16 "conv_003"
      customerName := utf16 "Mike Johnson"
      lastMessage := utf16 "What's your return policy?"
      status := .str (utf16 "completed")
      startTime := utf16 "2024-01-15 12:15"
      messageCount := 5
      satisfaction := .str (utf16 "positive") },
    { id := utf16 "conv_004"
      customerName := utf16 "Emma Brown"
      lastMessage := utf16 "I need help with sizing"
      status := .str (utf16 "needs_attention")
      startTime := utf16 "2024-01-15 17:20"
      messageCount := 12
      satisfaction := .str (utf16 "negative") } ]

/-- The conversations loader: the request is not read, the literal array is
returned whole with its length and the two option lists. -/
def Conversations.loader (_request : Request) : ConversationsData :=
  { conversations := conversations
    totalCount := conversations.length
    filters :=
      { status := [utf16 "all", utf16 "active", utf16 "completed", utf16 "needs_attention"]
        satisfaction := [utf16 "all", utf16 "positive", utf16 "negative", utf16 "neutral"] } }

/-- The names of the properties every object literal inherits from
`Object.prototype`; each holds a function or, for `__proto__`, the prototype
object, all of them truthy and none with a `status` or `label` property. -/
def objectPrototypeKeys : List JsString :=
  [ utf16 "constructor", utf16 "__defineGetter__", utf16 "__defineSetter__",
    utf16 "hasOwnProperty", utf16 "__lookupGetter__", utf16 "__lookupSetter__",
    utf16 "isPrototypeOf", utf16 "propertyIsEnumerable", utf16 "toString",
    utf16 "valueOf", utf16 "__proto__", utf16 "toLocaleString" ]

/-- A badge configuration `{ status, label }` of a map literal. -/
structure BadgeConfig where
  status : JsString
  label : JsString
  deriving DecidableEq, Repr

/-- What reading `map[key]` on a map literal of badge configurations gives. -/
inductive Lookup where
  | own (config : BadgeConfig)
  | inherited
  | absent
  deriving DecidableEq, Repr

/-- The property read `map[key]`: an own property first, then the prototype chain. -/
def getProperty (own : List (JsString × BadgeConfig)) (key : JsString) : Lookup :=
  match own.find? (fun p => p.1 == key) with
  | some p => .own p.2
  | none => if key ∈ objectPrototypeKeys then .inherited else .absent

/-- A rendered cell element: a `Badge` with its `status` prop and its child, or
a `Text` with its `color` prop and its child. -/
inductive Element where
  | badge (status : JsValue) (label : JsValue)
  | text (color : JsString) (content : JsString)
  deriving DecidableEq, Repr

/-- The object literal `statusMap` of `getStatusBadge`. -/
def statusMap : List (JsString × BadgeConfig) :=
  [ (utf16 "active", { status := utf16 "info", label := utf16 "Active" }),
    (utf16 "completed", { status := utf16 "success", label := utf16 "Completed" }),
    (utf16 "needs_attention", { status := utf16 "critical", label := utf16 "Needs Attention" }) ]

/-- The function `getStatusBadge`: `statusMap[status] || { status: "default", label: status }`,
then a `Badge` from the `status` and `label` of what was chosen. -/
def getStatusBadge (status : JsValue) : Element :=
  match getProperty statusMap (toPropertyKey status) with
  | .own config => .badge (.str config.status) (.str config.label)
  | .inherited => .badge .undefined .undefined
  | .absent => .badge (.str (utf16 "default")) status

/-- The object literal `satisfactionMap` of `getSatisfactionBadge`. -/
def satisfactionMap : List (JsString × BadgeConfig) :=
  [ (utf16 "positive", { status := utf16 "success", label := utf16 "😊 Positive" }),
    (utf16 "negative", { status := utf16 "critical", label := utf16 "😞 Negative" }),
    (utf16 "neutral", { status := utf16 "info", label := utf16 "😐 Neutral" }) ]

/-- The function `getSatisfactionBadge`: a subdued dash for a falsy value, else
the badge of `satisfactionMap[satisfaction]`; reading `status` of an
`undefined` configuration throws a `TypeError`. -/
def getSatisfactionBadge (satisfaction : JsValue) : Except JsError Element :=
  if !satisfaction.truthy then .ok (.text (utf16 "subdued") (utf16 "-"))
  else
    match getProperty satisfactionMap (toPropertyKey satisfaction) with
    | .own config => .ok (.badge (.str config.status) (.str config.label))
    | .inherited => .ok (.badge .undefined .undefined)
    | .absent => .error .typeError

/-- The third cell of a row: the last message, cut to 50 code units and
followed by three dots when it is longer. -/
def lastMessageCell (conversation : Conversation) : JsString :=
  if conversation.lastMessage.length > 50 then
    substring conversation.lastMessage 0 50 ++ utf16 "..."
  else conversation.lastMessage

/-- One row of the table: the seven cells of the array literal in `rows`. -/
structure Row where
  idButton : JsString
  customerName : JsString
  lastMessage : JsString
  statusBadge : Element
  satisfactionBadge : Element
  messageCount : Nat
  startTime : JsString
  deriving DecidableEq, Repr

/-- The callback of `conversations.map` in `rows`: the cells are evaluated in
order, so a throw of `getSatisfactionBadge` aborts the row. -/
def row (conversation : Conversation) : Except JsError Row :=
  let lastMessage := lastMessageCell conversation
  let statusBadge := getStatusBadge conversation.status
  match getSatisfactionBadge conversation.satisfaction with
  | .error e => .error e
  | .ok satisfactionBadge =>
    .ok { idButton := conversation.id
          customerName := conversation.customerName
          lastMessage := lastMessage
          statusBadge := statusBadge
          satisfactionBadge := satisfactionBadge
          messageCount := conversation.messageCount
          startTime := conversation.startTime }

/-- The array `rows`: `conversations.map` over the loader's conversations; the
first row that throws aborts the whole render. -/
def rows : List Conversation → Except JsError (List Row)
  | [] => .ok []
  | c :: cs =>
    match row c with
    | .error e => .error e
    | .ok r =>
      match rows cs with
      | .error e => .error e
      | .ok rs => .ok (r :: rs)

/-! ## The dashboard route, `app._index.jsx` -/

/-- A row of the `Message` table. -/
structure Message where
  id : JsString
  conversationId : JsString
  createdAt : Int
  role : JsString
  content : JsString
  deriving DecidableEq, Repr

/-- The clock of the server: the time value of `new Date()` in milliseconds
since the epoch, and the offset `LocalTZA(t, isUTC)` of the local time zone. -/
structure Clock where
  now : Int
  localTZA : Int → Bool → Int

/-- The number of milliseconds of a day. -/
def msPerDay : Int := 86400000

/-- The time value of `today` after `today.setHours(0, 0, 0, 0)`: the local
time of `now` is cut down to the start of its day, `MakeDate(Day(t), 0)`, and
converted back to UTC. The clock reads a time inside the range of `TimeClip`. -/
def startOfDay (clock : Clock) : Int :=
  let t := clock.now + clock.localTZA clock.now true
  let date := t / msPerDay * msPerDay
  date - clock.localTZA date false

/-- The query `prisma.message.count()`: the number of rows. -/
def countAll (db : List Message) : Nat :=
  db.length

/-- The `where` clause `{ createdAt: { gte: today } }`. -/
def createdAtGte (today : Int) (m : Message) : Bool :=
  decide (today ≤ m.createdAt)

/-- The query `prisma.message.count({ where: { createdAt: { gte: today } } })`. -/
def countWhereGte (db : List Message) (today : Int) : Nat :=
  (db.filter (createdAtGte today)).length

/-- One step of grouping: the row's key bumps the count of its group, or opens
a new group with count one. -/
def bump (key : JsString) : List (JsString × Nat) → List (JsString × Nat)
  | [] => [(key, 1)]
  | (k, n) :: groups =>
    if k = key then (k, n + 1) :: groups else (k, n) :: bump key groups

/-- The query `prisma.message.groupBy({ by: ['conversationId'], _count: { conversationId: true } })`
over the given rows: each row is put into the group of its `conversationId`, and a
group carries the number of its rows. -/
def groupByConversationId (msgs : List Message) : List (JsString × Nat) :=
  msgs.foldl (fun groups m => bump m.conversationId groups) []

/-- The same `groupBy` under the `where` clause `{ createdAt: { gte: today } }`. -/
def groupByConversationIdWhereGte (db : List Message) (today : Int) : List (JsString × Nat) :=
  groupByConversationId (db.filter (createdAtGte today))

/-- The local constants of the dashboard loader after its four queries. -/
structure DashboardQueries where
  totalMessages : Nat
  todayMessages : Nat
  conversations : List (JsString × Nat)
  todayConversations : List (JsString × Nat)
  deriving DecidableEq, Repr

/-- The four queries of the dashboard loader, all read from one state of the table. -/
def dashboardQueries (db : List Message) (today : Int) : DashboardQueries :=
  { totalMessages := countAll db
    todayMessages := countWhereGte db today
    conversations := groupByConversationId db
    todayConversations := groupByConversationIdWhereGte db today }

/-- A value of a property of `chatStats`. -/
inductive StatValue where
  | num (n : Nat)
  | text (s : JsString)
  deriving DecidableEq, Repr

/-- The object the dashboard loader returns: the properties of `chatStats` and
of `features`, in the order of the object literals. -/
structure DashboardData where
  chatStats : List (String × StatValue)
  features : List (String × Bool)
  deriving DecidableEq, Repr

/-- The environment variables the loader reads. -/
structure Env where
  CLAUDE_API_KEY : JsValue
  SHOPIFY_API_KEY : JsValue
  deriving DecidableEq, Repr

/-- The object literal of the loader's `return`, from its local constants. -/
def dashboardResult (q : DashboardQueries) (env : Env) : DashboardData :=
  { chatStats :=
      [ ("totalConversations", .num q.conversations.length),
        ("activeToday", .num q.todayConversations.length),
        ("totalMessages", .num q.totalMessages),
        ("avgResponseTime", .text (utf16 "< 3s")) ]
    features :=
      [ ("claudeEnabled", env.CLAUDE_API_KEY.truthy),
        ("mcpConnected", env.SHOPIFY_API_KEY.truthy),
        ("themeExtensionInstalled", false) ] }

/-- The dashboard loader: `authenticate.admin(request)` resolves or throws, then
`today` is set to local midnight, the four queries run and the result object
is built. -/
def Dashboard.loader (auth : Except JsError Unit) (env : Env) (clock : Clock)
    (db : List Message) : Except JsError DashboardData :=
  match auth with
  | .error e => .error e
  | .ok _ => .ok (dashboardResult (dashboardQueries db (startOfDay clock)) env)

/-- The read `obj.name` of a property of a result object, `none` for a property
the object does not have. -/
def getStat (stats : List (String × StatValue)) (name : String) : Option StatValue :=
  (stats.find? (fun p => p.1 == name)).map (fun p => p.2)

/-! ## The properties as the specification words them -/

/-- The truncation rule of the specification: a message longer than 50 is shown
as its first 50 characters followed by three dots, any other message unchanged. -/
def TruncatedTo50 (message cell : JsString) : Prop :=
  (50 < message.length → cell = message.take 50 ++ utf16 "...") ∧
  (message.length ≤ 50 → cell = message)

/-- The filter rule of the specification: a conversation matches when each of
the two filters is `"all"` or equals the conversation's field. -/
def matchesFilters (status satisfaction : JsValue) (c : Conversation) : Bool :=
  (status == .str (utf16 "all") || c.status == status) &&
  (satisfaction == .str (utf16 "all") || c.satisfaction == satisfaction)

/-- The request of the scenario: `?status=active&satisfaction=all`. -/
def activeAllRequest : Request :=
  { searchParams := [(utf16 "status", utf16 "active"), (utf16 "satisfaction", utf16 "all")] }

/-- A conversation whose last message is the letter `a` repeated `n` times. -/
def conversationOfLength (n : Nat) : Conversation :=
  { id := utf16 "conv_x"
    customerName := utf16 "X"
    lastMessage := List.replicate n 97
    status := .str (utf16 "active")
    startTime := utf16 "2024-01-15 10:00"
    messageCount := 1
    satisfaction := .null }

/-- The count a list of groups holds for a key, zero when the key has no group. -/
def groupCount (groups : List (JsString × Nat)) (key : JsString) : Nat :=
  match groups.find? (fun p => p.1 == key) with
  | some p => p.2
  | none => 0

/-- A table of three messages in two conversations, created at times 5, 50 and
86400500. -/
def sampleMessages : List Message :=
  [ { id := utf16 "m1", conversationId := utf16 "a", createdAt := 5,
      role := utf16 "customer", content := utf16 "hi" },
    { id := utf16 "m2", conversationId := utf16 "b", createdAt := 50,
      role := utf16 "assistant", content := utf16 "hello" },
    { id := utf16 "m3", conversationId := utf16 "a", createdAt := 86400500,
      role := utf16 "customer", content := utf16 "thanks" } ]

/-- A clock in UTC reading 100 ms into the second day after the epoch. -/
def sampleClock : Clock :=
  { now := 86400100, localTZA := fun _ _ => 0 }

/-- An environment with neither key set. -/
def sampleEnv : Env :=
  { CLAUDE_API_KEY := .undefined, SHOPIFY_API_KEY := .undefined }

/-- A conversation whose satisfaction is the unrecognised value `"mixed"`. -/
def mixedConversation : Conversation :=
  { id := utf16 "conv_005"
    customerName := utf16 "Ann Lee"
    lastMessage := utf16 "It was fine, I guess"
    status := .str (utf16 "completed")
    startTime := utf16 "2024-01-16 09:00"
    messageCount := 4
    satisfaction := .str (utf16 "mixed") }

/-! ## The landing route, `_index/route.jsx` -/

/-- The scalar values of a string: a surrogate pair is one scalar value, a lone
surrogate reads as U+FFFD, as in the strings a `URLSearchParams` holds. -/
def scalarValues : List Nat → List Nat
  | [] => []
  | u :: rest =>
    if 0xD800 ≤ u ∧ u < 0xDC00 then
      match rest with
      | [] => [0xFFFD]
      | v :: rest' =>
        if 0xDC00 ≤ v ∧ v < 0xE000 then
          (0x10000 + (u - 0xD800) * 0x400 + (v - 0xDC00)) :: scalarValues rest'
        else 0xFFFD :: scalarValues (v :: rest')
    else if 0xDC00 ≤ u ∧ u < 0xE000 then 0xFFFD :: scalarValues rest
    else u :: scalarValues rest

/-- The UTF-8 bytes of a scalar value. -/
def utf8Bytes (c : Nat) : List Nat :=
  if c < 0x80 then [c]
  else if c < 0x800 then [0xC0 + c / 0x40, 0x80 + c % 0x40]
  else if c < 0x10000 then [0xE0 + c / 0x1000, 0x80 + c / 0x40 % 0x40, 0x80 + c % 0x40]
  else [0xF0 + c / 0x40000, 0x80 + c / 0x1000 % 0x40, 0x80 + c / 0x40 % 0x40, 0x80 + c % 0x40]

/-- The upper-case hexadecimal digit of a value below 16, as a code unit. -/
def hexDigit (n : Nat) : Nat :=
  if n < 10 then 48 + n else 55 + n

/-- Whether a byte is outside the `application/x-www-form-urlencoded`
percent-encode set: an ASCII letter or digit, or one of `*`, `-`, `.`, `_`. -/
def isUrlencodedSafe (b : Nat) : Bool :=
  (48 ≤ b && b ≤ 57) || (65 ≤ b && b ≤ 90) || (97 ≤ b && b ≤ 122) ||
    b == 42 || b == 45 || b == 46 || b == 95

/-- The serialisation of one byte: a space becomes `+`, a safe byte stays, any
other byte becomes `%` and its two hexadecimal digits. -/
def urlencodeByte (b : Nat) : List Nat :=
  if b = 32 then [43]
  else if isUrlencodedSafe b then [b]
  else [37, hexDigit (b / 16), hexDigit (b % 16)]

/-- The `application/x-www-form-urlencoded` serialisation of a name or a value. -/
def urlencode (s : JsString) : JsString :=
  ((scalarValues s).flatMap utf8Bytes).flatMap urlencodeByte

/-- The method `URLSearchParams.prototype.toString`: each pair is written as
`name=value`, both serialised, and the pairs are joined by `&`. -/
def searchParamsToString : List (JsString × JsString) → JsString
  | [] => []
  | [p] => urlencode p.1 ++ utf16 "=" ++ urlencode p.2
  | p :: q :: rest =>
    urlencode p.1 ++ utf16 "=" ++ urlencode p.2 ++ utf16 "&" ++ searchParamsToString (q :: rest)

/-- The response a loader throws. -/
inductive Thrown where
  | response (status : Nat) (location : JsString)
  deriving DecidableEq, Repr

/-- The helper `redirect(url)` of `@remix-run/node`: a response with status 302
and the `Location` header set to `url`. -/
def redirect (url : JsString) : Thrown :=
  .response 302 url

/-- The binding `login` imported from `shopify.server`: a function, or
`undefined` when the app does not offer the login form. -/
inductive LoginExport where
  | undefined
  | function
  deriving DecidableEq, Repr

/-- The conversion `Boolean(login)`. -/
def LoginExport.toBoolean : LoginExport → Bool
  | .undefined => false
  | .function => true

/-- The landing loader: with a truthy `url.searchParams.get("shop")` it throws
a redirect to `/app?` followed by `url.searchParams.toString()`, otherwise it
returns the object `{ showForm: Boolean(login) }`. -/
def Landing.loader (login : LoginExport) (request : Request) :
    Except Thrown (List (String × Bool)) :=
  if (searchParamsGet request.searchParams (utf16 "shop")).truthy then
    .error (redirect (utf16 "/app?" ++ searchParamsToString request.searchParams))
  else .ok [("showForm", login.toBoolean)]

/-- The condition of the specification on a request: its `shop` search
parameter, the first pair of that name, is present with a non-empty value. -/
def ShopGiven (request : Request) : Prop :=
  ∃ before value after,
    request.searchParams = before ++ (utf16 "shop", value) :: after ∧
    (∀ p ∈ before, p.1 ≠ utf16 "shop") ∧ value ≠ []

/-- The request `?shop=my store.myshopify.com&host=é`, as parsed. -/
def shopRequest : Request :=
  { searchParams :=
      [(utf16 "shop", utf16 "my store.myshopify.com"), (utf16 "host", utf16 "é")] }

/-! ## Lemmas on the conversations route -/

theorem substring_zero_eq_take (s : JsString) (n : Nat) :
    substring s 0 (n : Int) = s.take n := by
  simp only [substring, clampIndex, Int.toNat_zero, Int.toNat_ofNat]
  have h0 : min 0 s.length = 0 := Nat.zero_min _
  rw [h0, Nat.zero_min, Nat.zero_max, Nat.sub_zero, List.drop_zero]
  rw [List.take_eq_take]
  simp

theorem lastMessageCell_truncated (c : Conversation) :
    TruncatedTo50 c.lastMessage (lastMessageCell c) := by
  have h := substring_zero_eq_take c.lastMessage 50
  constructor
  · intro hlen
    unfold lastMessageCell
    rw [if_pos hlen]
    exact congrArg (fun x => x ++ utf16 "...") h
  · intro hlen
    unfold lastMessageCell
    rw [if_neg (Nat.not_lt.mpr hlen)]

theorem row_lastMessage (c : Conversation) (r : Row) (h : row c = .ok r) :
    r.lastMessage = lastMessageCell c := by
  unfold row at h
  cases hs : getSatisfactionBadge c.satisfaction with
  | error e => simp [hs] at h
  | ok b =>
    simp only [hs] at h
    cases h
    rfl

theorem row_idButton (c : Conversation) (r : Row) (h : row c = .ok r) :
    r.idButton = c.id := by
  unfold row at h
  cases hs : getSatisfactionBadge c.satisfaction with
  | error e => simp [hs] at h
  | ok b =>
    simp only [hs] at h
    cases h
    rfl

theorem rows_cons_ok (c : Conversation) (cs : List Conversation) (rs : List Row)
    (h : rows (c :: cs) = .ok rs) :
    ∃ r rs', row c = .ok r ∧ rows cs = .ok rs' ∧ rs = r :: rs' := by
  unfold rows at h
  cases hr : row c with
  | error e => simp [hr] at h
  | ok r =>
    cases hrs : rows cs with
    | error e => simp [hr, hrs] at h
    | ok rs' =>
      simp only [hr, hrs] at h
      cases h
      exact ⟨r, rs', rfl, rfl, rfl⟩

theorem rows_forall₂ (cs : List Conversation) (rs : List Row) (h : rows cs = .ok rs) :
    List.Forall₂ (fun c r => row c = .ok r) cs rs := by
  induction cs generalizing rs with
  | nil =>
    unfold rows at h
    cases h
    exact List.Forall₂.nil
  | cons c cs ih =>
    obtain ⟨r, rs', hr, hrs, rfl⟩ := rows_cons_ok c cs rs h
    exact List.Forall₂.cons hr (ih rs' hrs)

theorem filter_eq_all_iff (s t : JsValue) :
    conversations.filter (matchesFilters s t) = conversations ↔
      s = .str (utf16 "all") ∧ t = .str (utf16 "all") := by
  constructor
  · intro h
    rw [List.filter_eq_self] at h
    have h1 := h (conversations.get ⟨0, by decide⟩) (List.get_mem _ _ _)
    have h2 := h (conversations.get ⟨1, by decide⟩) (List.get_mem _ _ _)
    have e1 : (conversations.get ⟨0, by decide⟩).status = .str (utf16 "completed") := by decide
    have e2 : (conversations.get ⟨1, by decide⟩).status = .str (utf16 "active") := by decide
    have e3 : (conversations.get ⟨0, by decide⟩).satisfaction = .str (utf16 "positive") := by
      decide
    have e4 : (conversations.get ⟨1, by decide⟩).satisfaction = .null := by decide
    simp only [matchesFilters, e1, e2, e3, e4, Bool.and_eq_true, Bool.or_eq_true,
      beq_iff_eq] at h1 h2
    constructor
    · rcases h1.1 with h | h
      · exact h
      · rcases h2.1 with h' | h'
        · exact h'
        · rw [← h] at h'
          exact absurd h' (by decide)
    · rcases h1.2 with h | h
      · exact h
      · rcases h2.2 with h' | h'
        · exact h'
        · rw [← h] at h'
          exact absurd h' (by decide)
  · rintro ⟨rfl, rfl⟩
    decide

theorem getProperty_absent (own : List (JsString × BadgeConfig)) (key : JsString)
    (hown : ∀ p ∈ own, p.1 ≠ key) (hproto : key ∉ objectPrototypeKeys) :
    getProperty own key = .absent := by
  unfold getProperty
  have hfind : own.find? (fun p => p.1 == key) = none := by
    rw [List.find?_eq_none]
    intro p hp
    simpa using hown p hp
  rw [hfind]
  simp [hproto]

theorem conversationsLoader_conversations (req : Request) :
    (Conversations.loader req).conversations = conversations := rfl

theorem rows_conversations_ids :
    (rows conversations).map (List.map Row.idButton)
      = .ok [utf16 "conv_001", utf16 "conv_002", utf16 "conv_003", utf16 "conv_004"] := by
  decide

theorem rows_conversations_ok :
    ∃ rs, rows conversations = .ok rs ∧ rs.length = conversations.length ∧
      rs.map Row.idButton = conversations.map Conversation.id := by
  have hids := rows_conversations_ids
  cases hrows : rows conversations with
  | error e =>
    rw [hrows] at hids
    cases hids
  | ok rs =>
    rw [hrows] at hids
    have hmap : rs.map Row.idButton
        = [utf16 "conv_001", utf16 "conv_002", utf16 "conv_003", utf16 "conv_004"] := by
      simpa [Except.map] using hids
    refine ⟨rs, rfl, ?_, ?_⟩
    · have hlen := congrArg List.length hmap
      rw [List.length_map] at hlen
      rw [hlen]
      decide
    · rw [hmap]
      decide

theorem getStatusBadge_passes_through (status : JsValue)
    (hown : ∀ p ∈ statusMap, p.1 ≠ toPropertyKey status)
    (hproto : toPropertyKey status ∉ objectPrototypeKeys) :
    getStatusBadge status = .badge (.str (utf16 "default")) status := by
  unfold getStatusBadge
  rw [getProperty_absent statusMap _ hown hproto]

/-! ## The claims on the conversations route -/

/-- C1: whenever `rows` is built, the 'Last Message' cell of each row is the
cell expression of its conversation, and that cell is the first 50 characters
of `lastMessage` followed by `"..."` when `lastMessage` is longer than 50 and
`lastMessage` unchanged when its length is at most 50. -/
theorem rows_lastMessage_truncated (cs : List Conversation) (rs : List Row)
    (h : rows cs = .ok rs) :
    List.Forall₂
      (fun (c : Conversation) (r : Row) =>
        r.lastMessage = lastMessageCell c ∧ TruncatedTo50 c.lastMessage r.lastMessage)
      cs rs := by
  refine (rows_forall₂ cs rs h).imp ?_
  intro c r hr
  have hcell := row_lastMessage c r hr
  exact ⟨hcell, hcell ▸ lastMessageCell_truncated c⟩

/-- The instance of C1 at a 51-character and a 50-character message: the first
renders as 50 characters and three dots, the second unmodified. -/
theorem rows_lastMessage_truncated_witness :
    (rows [conversationOfLength 51, conversationOfLength 50]).map (List.map Row.lastMessage)
        = .ok [List.replicate 50 97 ++ utf16 "...", List.replicate 50 97] ∧
      List.Forall₂
        (fun (c : Conversation) (r : Row) =>
          r.lastMessage = lastMessageCell c ∧ TruncatedTo50 c.lastMessage r.lastMessage)
        [conversationOfLength 51, conversationOfLength 50]
        [ { idButton := utf16 "conv_x", customerName := utf16 "X",
            lastMessage := List.replicate 50 97 ++ utf16 "...",
            statusBadge := .badge (.str (utf16 "info")) (.str (utf16 "Active")),
            satisfactionBadge := .text (utf16 "subdued") (utf16 "-"),
            messageCount := 1, startTime := utf16 "2024-01-15 10:00" },
          { idButton := utf16 "conv_x", customerName := utf16 "X",
            lastMessage := List.replicate 50 97,
            statusBadge := .badge (.str (utf16 "info")) (.str (utf16 "Active")),
            satisfactionBadge := .text (utf16 "subdued") (utf16 "-"),
            messageCount := 1, startTime := utf16 "2024-01-15 10:00" } ] :=
  ⟨by decide, rows_lastMessage_truncated _ _ (by decide)⟩

/-- C2, as stated, fails: for `?status=active&satisfaction=all` the filters read
`"active"` and `"all"`, only conv_002 matches both, and the loader returns all
four conversations. -/
theorem conversationsLoader_active_not_filtered :
    filterValue activeAllRequest (utf16 "status") = .str (utf16 "active") ∧
    filterValue activeAllRequest (utf16 "satisfaction") = .str (utf16 "all") ∧
    (conversations.filter
        (matchesFilters (.str (utf16 "active")) (.str (utf16 "all")))).map Conversation.id
      = [utf16 "conv_002"] ∧
    (Conversations.loader activeAllRequest).conversations.map Conversation.id
      = [utf16 "conv_001", utf16 "conv_002", utf16 "conv_003", utf16 "conv_004"] ∧
    (Conversations.loader activeAllRequest).conversations
      ≠ conversations.filter (matchesFilters (.str (utf16 "active")) (.str (utf16 "all"))) := by
  decide

/-- C2, amended: for every request the loader returns the four stored
conversations whatever the filter values, one table row is built for each of
them in order, and what is returned is exactly the set matching both filters
if and only if both filters read `"all"`. -/
theorem conversationsLoader_returns_all (req : Request) :
    (Conversations.loader req).conversations = conversations ∧
    (rows (Conversations.loader req).conversations).map (List.map Row.idButton)
      = .ok [utf16 "conv_001", utf16 "conv_002", utf16 "conv_003", utf16 "conv_004"] ∧
    ((Conversations.loader req).conversations
        = conversations.filter
            (matchesFilters (filterValue req (utf16 "status"))
              (filterValue req (utf16 "satisfaction")))
      ↔ filterValue req (utf16 "status") = .str (utf16 "all") ∧
        filterValue req (utf16 "satisfaction") = .str (utf16 "all")) := by
  refine ⟨rfl, rows_conversations_ids, ?_⟩
  rw [conversationsLoader_conversations]
  have h := filter_eq_all_iff (filterValue req (utf16 "status"))
    (filterValue req (utf16 "satisfaction"))
  constructor
  · intro heq
    exact h.mp heq.symm
  · intro hall
    exact (h.mpr hall).symm

/-- C8: when both filters read `"all"`, the loader returns every stored
conversation, no two returned entries share an id, `totalCount` is the length
of the returned list, and `rows` builds one row per conversation, in order. -/
theorem conversationsLoader_all_once (req : Request)
    (hstatus : filterValue req (utf16 "status") = .str (utf16 "all"))
    (hsatisfaction : filterValue req (utf16 "satisfaction") = .str (utf16 "all")) :
    (∀ c ∈ conversations, c ∈ (Conversations.loader req).conversations) ∧
    (Conversations.loader req).conversations
      = conversations.filter
          (matchesFilters (filterValue req (utf16 "status"))
            (filterValue req (utf16 "satisfaction"))) ∧
    ((Conversations.loader req).conversations.map Conversation.id).Nodup ∧
    (Conversations.loader req).totalCount = (Conversations.loader req).conversations.length ∧
    ∃ rs, rows (Conversations.loader req).conversations = .ok rs ∧
      rs.length = (Conversations.loader req).conversations.length ∧
      rs.map Row.idButton = (Conversations.loader req).conversations.map Conversation.id := by
  rw [conversationsLoader_conversations, hstatus, hsatisfaction]
  exact ⟨fun c hc => hc, by decide, by decide, rfl, rows_conversations_ok⟩

/-- The instance of C8 at a request without search parameters: both filters
default to `"all"`. -/
theorem conversationsLoader_all_once_witness :
    filterValue { searchParams := [] } (utf16 "status") = .str (utf16 "all") ∧
    filterValue { searchParams := [] } (utf16 "satisfaction") = .str (utf16 "all") ∧
    ((Conversations.loader { searchParams := [] }).conversations.map Conversation.id).Nodup ∧
    (Conversations.loader { searchParams := [] }).totalCount = 4 :=
  ⟨by decide, by decide,
    (conversationsLoader_all_once { searchParams := [] } (by decide) (by decide)).2.2.1,
    by decide⟩

/-- C9, on the code: the three known statuses get the labels `"Active"`,
`"Completed"` and `"Needs Attention"`, and a value that is no property name at
all, such as `"archived"`, passes through with the status `"default"`; but
`"constructor"`, which the map literal inherits from `Object.prototype`, is
found by `statusMap[status]`, so its badge has neither the value as label nor
the default status. -/
theorem getStatusBadge_constructor :
    getStatusBadge (.str (utf16 "active"))
      = .badge (.str (utf16 "info")) (.str (utf16 "Active")) ∧
    getStatusBadge (.str (utf16 "completed"))
      = .badge (.str (utf16 "success")) (.str (utf16 "Completed")) ∧
    getStatusBadge (.str (utf16 "needs_attention"))
      = .badge (.str (utf16 "critical")) (.str (utf16 "Needs Attention")) ∧
    getStatusBadge (.str (utf16 "archived"))
      = .badge (.str (utf16 "default")) (.str (utf16 "archived")) ∧
    getStatusBadge (.str (utf16 "constructor")) = .badge .undefined .undefined ∧
    getStatusBadge (.str (utf16 "constructor"))
      ≠ .badge (.str (utf16 "default")) (.str (utf16 "constructor")) := by
  decide

/-- C10, as stated, fails: the label for `"positive"` is not `"Positive"`, it is
`"😊 Positive"`. -/
theorem getSatisfactionBadge_positive_not_bare :
    getSatisfactionBadge (.str (utf16 "positive"))
      = .ok (.badge (.str (utf16 "success")) (.str (utf16 "😊 Positive"))) ∧
    getSatisfactionBadge (.str (utf16 "positive"))
      ≠ .ok (.badge (.str (utf16 "success")) (.str (utf16 "Positive"))) := by
  decide

/-- C10, amended: the badge labels are `"😊 Positive"`, `"😞 Negative"` and
`"😐 Neutral"`, each the word of the claim after an emoji and a space, and an
absent or `null` satisfaction gives the dash `"-"` as a `Text`, not a badge. -/
theorem getSatisfactionBadge_labels :
    getSatisfactionBadge (.str (utf16 "positive"))
      = .ok (.badge (.str (utf16 "success")) (.str (utf16 "😊 Positive"))) ∧
    getSatisfactionBadge (.str (utf16 "negative"))
      = .ok (.badge (.str (utf16 "critical")) (.str (utf16 "😞 Negative"))) ∧
    getSatisfactionBadge (.str (utf16 "neutral"))
      = .ok (.badge (.str (utf16 "info")) (.str (utf16 "😐 Neutral"))) ∧
    utf16 "😊 Positive" = utf16 "😊 " ++ utf16 "Positive" ∧
    utf16 "😞 Negative" = utf16 "😞 " ++ utf16 "Negative" ∧
    utf16 "😐 Neutral" = utf16 "😐 " ++ utf16 "Neutral" ∧
    getSatisfactionBadge .undefined = .ok (.text (utf16 "subdued") (utf16 "-")) ∧
    getSatisfactionBadge .null = .ok (.text (utf16 "subdued") (utf16 "-")) := by
  decide

/-! ## Lemmas on the dashboard route -/

theorem mem_keys_bump (key x : JsString) (groups : List (JsString × Nat)) :
    x ∈ (bump key groups).map Prod.fst ↔ x = key ∨ x ∈ groups.map Prod.fst := by
  induction groups with
  | nil => simp [bump]
  | cons g groups ih =>
    obtain ⟨k, n⟩ := g
    unfold bump
    by_cases hk : k = key
    · subst hk
      simp
    · rw [if_neg hk]
      simp only [List.map_cons, List.mem_cons, ih]
      tauto

theorem nodup_keys_bump (key : JsString) (groups : List (JsString × Nat))
    (h : (groups.map Prod.fst).Nodup) : ((bump key groups).map Prod.fst).Nodup := by
  induction groups with
  | nil => simp [bump]
  | cons g groups ih =>
    obtain ⟨k, n⟩ := g
    unfold bump
    by_cases hk : k = key
    · rw [if_pos hk]
      exact h
    · rw [if_neg hk]
      simp only [List.map_cons, List.nodup_cons] at h ⊢
      refine ⟨?_, ih h.2⟩
      rw [mem_keys_bump]
      rintro (h' | h')
      · exact hk h'
      · exact h.1 h'

theorem groupCount_bump (key x : JsString) (groups : List (JsString × Nat)) :
    groupCount (bump key groups) x = groupCount groups x + (if x = key then 1 else 0) := by
  induction groups with
  | nil =>
    by_cases hx : x = key
    · subst hx
      simp [bump, groupCount]
    · have hx' : ¬ key = x := fun h => hx h.symm
      simp [bump, groupCount, hx, hx']
  | cons g groups ih =>
    obtain ⟨k, n⟩ := g
    unfold bump
    by_cases hk : k = key
    · subst hk
      by_cases hx : x = k
      · subst hx
        simp [groupCount]
      · have hx' : ¬ k = x := fun h => hx h.symm
        simp [groupCount, hx, hx']
    · rw [if_neg hk]
      by_cases hx : k = x
      · subst hx
        simp [groupCount, hk]
      · have key_step : groupCount ((k, n) :: bump key groups) x
            = groupCount (bump key groups) x := by
          simp [groupCount, hx]
        have key_old : groupCount ((k, n) :: groups) x = groupCount groups x := by
          simp [groupCount, hx]
        rw [key_step, key_old, ih]

theorem foldl_bump_keys (msgs : List Message) (acc : List (JsString × Nat))
    (h : (acc.map Prod.fst).Nodup) :
    ((msgs.foldl (fun groups m => bump m.conversationId groups) acc).map Prod.fst).Nodup ∧
    ∀ x, x ∈ (msgs.foldl (fun groups m => bump m.conversationId groups) acc).map Prod.fst ↔
      x ∈ acc.map Prod.fst ∨ x ∈ msgs.map Message.conversationId := by
  induction msgs generalizing acc with
  | nil => simp [h]
  | cons m msgs ih =>
    have hstep := ih (bump m.conversationId acc) (nodup_keys_bump _ _ h)
    simp only [List.foldl_cons]
    refine ⟨hstep.1, ?_⟩
    intro x
    rw [hstep.2 x, mem_keys_bump]
    simp only [List.map_cons, List.mem_cons]
    tauto

theorem foldl_bump_count (msgs : List Message) (acc : List (JsString × Nat)) (x : JsString) :
    groupCount (msgs.foldl (fun groups m => bump m.conversationId groups) acc) x
      = groupCount acc x + (msgs.map Message.conversationId).count x := by
  induction msgs generalizing acc with
  | nil => simp
  | cons m msgs ih =>
    simp only [List.foldl_cons, List.map_cons]
    rw [ih, groupCount_bump, List.count_cons]
    by_cases hx : x = m.conversationId
    · subst hx
      simp
      omega
    · have hx' : ¬ m.conversationId = x := fun h => hx h.symm
      simp [hx, hx']

theorem groupCount_of_mem (groups : List (JsString × Nat)) (k : JsString) (n : Nat)
    (hnodup : (groups.map Prod.fst).Nodup) (hmem : (k, n) ∈ groups) :
    groupCount groups k = n := by
  induction groups with
  | nil => cases hmem
  | cons g groups ih =>
    obtain ⟨k', n'⟩ := g
    simp only [List.map_cons, List.nodup_cons] at hnodup
    rcases List.mem_cons.mp hmem with heq | htail
    · cases heq
      simp [groupCount]
    · have hne : ¬ k' = k := by
        intro hk
        subst hk
        exact hnodup.1 (List.mem_map.mpr ⟨(k', n), htail, rfl⟩)
      have hstep : groupCount ((k', n') :: groups) k = groupCount groups k := by
        simp [groupCount, hne]
      rw [hstep]
      exact ih hnodup.2 htail

theorem groupBy_keys_nodup (msgs : List Message) :
    ((groupByConversationId msgs).map Prod.fst).Nodup :=
  (foldl_bump_keys msgs [] (by simp)).1

theorem groupBy_mem_keys (msgs : List Message) (x : JsString) :
    x ∈ (groupByConversationId msgs).map Prod.fst ↔ x ∈ msgs.map Message.conversationId := by
  have h := (foldl_bump_keys msgs [] (by simp)).2 x
  simpa [groupByConversationId] using h

theorem groupBy_count (msgs : List Message) (k : JsString) (n : Nat)
    (hmem : (k, n) ∈ groupByConversationId msgs) :
    n = (msgs.map Message.conversationId).count k := by
  have h1 := groupCount_of_mem _ k n (groupBy_keys_nodup msgs) hmem
  have h2 := foldl_bump_count msgs [] k
  have h3 : groupCount [] k = 0 := rfl
  rw [h3, Nat.zero_add] at h2
  rw [← h1]
  exact h2

theorem groupBy_length (msgs : List Message) :
    (groupByConversationId msgs).length = (msgs.map Message.conversationId).toFinset.card := by
  have hcard := List.toFinset_card_of_nodup (groupBy_keys_nodup msgs)
  rw [List.length_map] at hcard
  rw [← hcard]
  congr 1
  ext x
  simp only [List.mem_toFinset]
  exact groupBy_mem_keys msgs x

theorem groupBy_filter_length_le (msgs : List Message) (p : Message → Bool) :
    (groupByConversationId (msgs.filter p)).length ≤ (groupByConversationId msgs).length := by
  rw [groupBy_length, groupBy_length]
  apply Finset.card_le_card
  intro x hx
  simp only [List.mem_toFinset, List.mem_map] at hx ⊢
  obtain ⟨m, hm, rfl⟩ := hx
  exact ⟨m, (List.mem_filter.mp hm).1, rfl⟩

theorem startOfDay_is_local_midnight (clock : Clock) :
    ∃ date : Int, date % msPerDay = 0 ∧
      date ≤ clock.now + clock.localTZA clock.now true ∧
      clock.now + clock.localTZA clock.now true < date + msPerDay ∧
      startOfDay clock = date - clock.localTZA date false := by
  refine ⟨(clock.now + clock.localTZA clock.now true) / msPerDay * msPerDay, ?_, ?_, ?_, rfl⟩
  · exact Int.mul_emod_left _ _
  · unfold msPerDay
    omega
  · unfold msPerDay
    omega

/-! ## The claims on the dashboard route -/

/-- C3, as stated, fails: on a table with one message of today the loader
counts `todayMessages = 1`, and the `chatStats` it returns have no property
`todayMessages`. -/
theorem dashboardLoader_drops_todayMessages :
    (dashboardQueries sampleMessages (startOfDay sampleClock)).todayMessages = 1 ∧
    (Dashboard.loader (.ok ()) sampleEnv sampleClock sampleMessages).map
        (fun data => data.chatStats.map Prod.fst)
      = .ok ["totalConversations", "activeToday", "totalMessages", "avgResponseTime"] ∧
    (Dashboard.loader (.ok ()) sampleEnv sampleClock sampleMessages).map
        (fun data => getStat data.chatStats "todayMessages")
      = .ok none := by
  decide

/-- C3, amended: for every table and clock the loader computes all four
counts, `todayMessages` being the number of messages whose `createdAt` is at
or after `today`, the UTC time of the local midnight that starts the local day
of `now`; the `chatStats` it returns hold `totalConversations`, `activeToday`
and `totalMessages` (with `avgResponseTime`), and not `todayMessages`. -/
theorem dashboardLoader_stats (env : Env) (clock : Clock) (db : List Message) :
    ∃ data, Dashboard.loader (.ok ()) env clock db = .ok data ∧
      data.chatStats.map Prod.fst
        = ["totalConversations", "activeToday", "totalMessages", "avgResponseTime"] ∧
      getStat data.chatStats "totalMessages"
        = some (.num (dashboardQueries db (startOfDay clock)).totalMessages) ∧
      getStat data.chatStats "totalConversations"
        = some (.num (dashboardQueries db (startOfDay clock)).conversations.length) ∧
      getStat data.chatStats "activeToday"
        = some (.num (dashboardQueries db (startOfDay clock)).todayConversations.length) ∧
      getStat data.chatStats "todayMessages" = none ∧
      (dashboardQueries db (startOfDay clock)).totalMessages = db.length ∧
      (dashboardQueries db (startOfDay clock)).todayMessages
        = db.countP (fun m => decide (startOfDay clock ≤ m.createdAt)) ∧
      ∃ date : Int, date % msPerDay = 0 ∧
        date ≤ clock.now + clock.localTZA clock.now true ∧
        clock.now + clock.localTZA clock.now true < date + msPerDay ∧
        startOfDay clock = date - clock.localTZA date false := by
  refine ⟨_, rfl, rfl, rfl, rfl, rfl, rfl, rfl, ?_, startOfDay_is_local_midnight clock⟩
  simp only [dashboardQueries, countWhereGte, List.countP_eq_length_filter]
  rfl

/-- C4: for every table and clock the loader returns, and its `activeToday`,
the number of `conversationId` groups among the messages created at or after
the start of the day, is at most its `totalConversations`, the number of
`conversationId` groups among all messages. -/
theorem activeToday_le_totalConversations (env : Env) (clock : Clock) (db : List Message) :
    ∃ data, Dashboard.loader (.ok ()) env clock db = .ok data ∧
      getStat data.chatStats "activeToday"
        = some (.num (groupByConversationIdWhereGte db (startOfDay clock)).length) ∧
      getStat data.chatStats "totalConversations"
        = some (.num (groupByConversationId db).length) ∧
      (groupByConversationIdWhereGte db (startOfDay clock)).length
        ≤ (groupByConversationId db).length :=
  ⟨_, rfl, rfl, rfl, groupBy_filter_length_le db (createdAtGte (startOfDay clock))⟩

/-- C5: for every table and clock the count of the messages created at or after
the start of the day, `todayMessages`, is at most the count of all messages,
`totalMessages`, which is the one the loader returns. -/
theorem todayMessages_le_totalMessages (env : Env) (clock : Clock) (db : List Message) :
    (dashboardQueries db (startOfDay clock)).todayMessages
      ≤ (dashboardQueries db (startOfDay clock)).totalMessages ∧
    (dashboardQueries db (startOfDay clock)).todayMessages
      = countWhereGte db (startOfDay clock) ∧
    (dashboardQueries db (startOfDay clock)).totalMessages = countAll db ∧
    ∃ data, Dashboard.loader (.ok ()) env clock db = .ok data ∧
      getStat data.chatStats "totalMessages"
        = some (.num (dashboardQueries db (startOfDay clock)).totalMessages) :=
  ⟨List.length_filter_le _ _, rfl, rfl, _, rfl, rfl⟩

/-- C6: for every table the loader's `totalConversations` is the number of
distinct `conversationId` values of the messages: the groups have pairwise
different keys, the keys are exactly the ids that occur, and a group's count is
the number of messages of its conversation, however many they are. -/
theorem totalConversations_distinct (env : Env) (clock : Clock) (db : List Message) :
    ∃ data, Dashboard.loader (.ok ()) env clock db = .ok data ∧
      getStat data.chatStats "totalConversations"
        = some (.num (db.map Message.conversationId).toFinset.card) ∧
      ((groupByConversationId db).map Prod.fst).Nodup ∧
      (∀ k, k ∈ (groupByConversationId db).map Prod.fst ↔
        k ∈ db.map Message.conversationId) ∧
      ∀ k n, (k, n) ∈ groupByConversationId db →
        n = (db.map Message.conversationId).count k := by
  refine ⟨_, rfl, ?_, groupBy_keys_nodup db, groupBy_mem_keys db, groupBy_count db⟩
  rw [← groupBy_length]
  rfl

/-- C7: on an empty table the loader returns, with `totalConversations`,
`activeToday` and `totalMessages` all 0, and the `todayMessages` it computes
is 0 too. -/
theorem dashboardLoader_empty (env : Env) (clock : Clock) :
    Dashboard.loader (.ok ()) env clock []
      = .ok { chatStats :=
                [ ("totalConversations", .num 0), ("activeToday", .num 0),
                  ("totalMessages", .num 0), ("avgResponseTime", .text (utf16 "< 3s")) ]
              features :=
                [ ("claudeEnabled", env.CLAUDE_API_KEY.truthy),
                  ("mcpConnected", env.SHOPIFY_API_KEY.truthy),
                  ("themeExtensionInstalled", false) ] } ∧
    (dashboardQueries [] (startOfDay clock)).todayMessages = 0 :=
  ⟨rfl, rfl⟩

/-! ## Lemmas on the row badges and on the landing route -/

theorem getSatisfactionBadge_error_iff (satisfaction : JsValue) :
    (∃ e, getSatisfactionBadge satisfaction = .error e) ↔
      satisfaction.truthy = true ∧
        getProperty satisfactionMap (toPropertyKey satisfaction) = .absent := by
  unfold getSatisfactionBadge
  cases ht : satisfaction.truthy with
  | false => simp
  | true =>
    cases hp : getProperty satisfactionMap (toPropertyKey satisfaction) with
    | own config => simp
    | inherited => simp
    | absent => simp

theorem row_error_iff (c : Conversation) :
    (∃ e, row c = .error e) ↔ ∃ e, getSatisfactionBadge c.satisfaction = .error e := by
  unfold row
  cases hs : getSatisfactionBadge c.satisfaction with
  | error e => simp
  | ok b => simp

theorem shop_truthy_iff (request : Request) :
    (searchParamsGet request.searchParams (utf16 "shop")).truthy = true ↔ ShopGiven request := by
  unfold searchParamsGet ShopGiven
  constructor
  · intro h
    cases hf : request.searchParams.find? (fun p => p.1 == utf16 "shop") with
    | none =>
      rw [hf] at h
      cases h
    | some p =>
      rw [hf] at h
      obtain ⟨hp, before, after, hsplit, hbefore⟩ := List.find?_eq_some.mp hf
      obtain ⟨name, value⟩ := p
      have hname : name = utf16 "shop" := by simpa using hp
      subst hname
      refine ⟨before, value, after, hsplit, ?_, ?_⟩
      · intro q hq
        simpa using hbefore q hq
      · intro hv
        subst hv
        cases h
  · rintro ⟨before, value, after, hsplit, hbefore, hvalue⟩
    have hf : request.searchParams.find? (fun p => p.1 == utf16 "shop")
        = some (utf16 "shop", value) := by
      rw [List.find?_eq_some]
      refine ⟨by simp, before, after, hsplit, ?_⟩
      intro q hq
      simpa using hbefore q hq
    rw [hf]
    cases value with
    | nil => exact absurd rfl hvalue
    | cons u us => rfl

/-! ## The claims on error handling -/

/-- C11, on the code: the unrecognised value `"mixed"` passes through
`getStatusBadge` as a literal label, but `getSatisfactionBadge` has no fallback
for it and throws a `TypeError`, which aborts the row of its conversation and
with it the whole of `rows`. -/
theorem row_mixed_satisfaction_throws :
    getStatusBadge (.str (utf16 "mixed"))
      = .badge (.str (utf16 "default")) (.str (utf16 "mixed")) ∧
    getSatisfactionBadge (.str (utf16 "mixed")) = .error .typeError ∧
    row mixedConversation = .error .typeError ∧
    rows (conversations ++ [mixedConversation]) = .error .typeError := by
  decide

/-- C12: for every request the landing loader throws a redirect, of status 302
to `/app?` followed by the serialised search parameters, when the `shop`
parameter is present with a non-empty value; when it is absent or empty the
loader returns the object with the one property `showForm`; so it throws if
and only if `shop` is given. -/
theorem landing_loader_redirects_iff_shop (login : LoginExport) (request : Request) :
    (ShopGiven request →
      Landing.loader login request
        = .error (.response 302 (utf16 "/app?" ++ searchParamsToString request.searchParams))) ∧
    (¬ ShopGiven request →
      Landing.loader login request = .ok [("showForm", login.toBoolean)]) ∧
    ((∃ t, Landing.loader login request = .error t) ↔ ShopGiven request) := by
  have hiff := shop_truthy_iff request
  unfold Landing.loader
  by_cases hshop : ShopGiven request
  · have ht := hiff.mpr hshop
    rw [if_pos ht]
    exact ⟨fun _ => rfl, fun hn => absurd hshop hn, fun _ => hshop, fun _ => ⟨_, rfl⟩⟩
  · have ht : ¬ (searchParamsGet request.searchParams (utf16 "shop")).truthy = true :=
      fun h => hshop (hiff.mp h)
    rw [if_neg ht]
    refine ⟨fun h => absurd h hshop, fun _ => rfl, ?_, fun h => absurd h hshop⟩
    rintro ⟨t, h⟩
    cases h

/-- The instances of C12 at `?shop=my store.myshopify.com&host=é`, which
redirects to `/app?shop=my+store.myshopify.com&host=%C3%A9`, at a request
without search parameters and at `?shop=`, which both return `showForm`. -/
theorem landing_loader_redirects_iff_shop_witness :
    ShopGiven shopRequest ∧
    Landing.loader .function shopRequest
      = .error (.response 302 (utf16 "/app?shop=my+store.myshopify.com&host=%C3%A9")) ∧
    Landing.loader .function { searchParams := [] } = .ok [("showForm", true)] ∧
    Landing.loader .undefined { searchParams := [(utf16 "shop", [])] }
      = .ok [("showForm", false)] :=
  have hshop : ShopGiven shopRequest :=
    ⟨[], utf16 "my store.myshopify.com", [(utf16 "host", utf16 "é")], rfl,
      fun _ h => absurd h (List.not_mem_nil _), by decide⟩
  ⟨hshop,
    ((landing_loader_redirects_iff_shop .function shopRequest).1 hshop).trans (by decide),
    (landing_loader_redirects_iff_shop .function { searchParams := [] }).2.1
      (fun h => absurd ((shop_truthy_iff _).mpr h) (by decide)),
    (landing_loader_redirects_iff_shop .undefined { searchParams := [(utf16 "shop", [])] }).2.1
      (fun h => absurd ((shop_truthy_iff _).mpr h) (by decide))⟩

end SopApp
